import Mathlib

/-!
Verification of the tenant provisioning and task-routing subsystem of the
`mate` repository, as a shallow embedding in Lean 4.

The embedding follows the Python source:
  * `mate/tenants/managers.py`      — thread-local tenant context store
  * `mate/tenants/tasks.py`         — `TenantAwareTask.__call__` / `apply_async`
  * `mate/tenants/middleware.py`    — `TenantMiddleware.get_tenant` / `process_request`
  * `mate/tenants/db_utils.py`      — `get_tenant_db_config` / `clear_db_config_cache`
  * `mate/provisioning/tasks.py`    — provisioning orchestration, readiness pollers,
                                       `deprovision_tenant_infrastructure`
  * `mate/tenants/models.py`        — declared model fields used to check the
                                       keyword arguments of `objects.create` calls

Python dictionaries of string keys/values are represented as association
lists, thread-local state as an explicit `Option` value threaded through the
functions, and raised exceptions as `Except` errors carrying the exception
message from the source.
-/

namespace Mate

/-- A tenant record as seen by the tenant-resolution and task code: the
fields of `Tenant` in `mate/tenants/models.py` that this development reads
(`id`, `subdomain`, `is_active`, `deployment_status`, `db_secret_arn`,
`rds_endpoint`, `rds_port`, `rds_database_name`).  The UUID primary key is
modelled as a string, which is how it is compared against headers and task
payload values in the source (`str(tenant.id)`). -/
structure TenantRec where
  id : String
  subdomain : String
  is_active : Bool
  deployment_status : String
  db_secret_arn : String := ""
  rds_endpoint : String := ""
  rds_port : Nat := 5432
  rds_database_name : String := ""
deriving DecidableEq, Repr

/-! ## Tenant context store (`mate/tenants/managers.py`)

`threading.local()` state is modelled as an explicit `Option TenantRec`
value: `none` when no `tenant` attribute is set on `_thread_locals`. -/

/-- `get_current_tenant`: `getattr(_thread_locals, "tenant", None)`. -/
def get_current_tenant (s : Option TenantRec) : Option TenantRec := s

/-- `set_current_tenant(tenant)`: `_thread_locals.tenant = tenant`. -/
def set_current_tenant (tenant : TenantRec) (_s : Option TenantRec) : Option TenantRec :=
  some tenant

/-- `clear_current_tenant()`: deletes the `tenant` attribute when present,
leaving the store empty in either case. -/
def clear_current_tenant (_s : Option TenantRec) : Option TenantRec := none

/-! ## Tenant-aware task dispatcher (`mate/tenants/tasks.py`) -/

/-- Python truthiness of an optional string: `None` and `""` are falsy.
Used for `if not tenant_id:` / `if tenant_id:` and `os.environ.get` checks. -/
def truthyStr : Option String → Option String
  | none => none
  | some s => if s = "" then none else some s

/-- Association-list lookup of a string key, modelling `d[k]` / `k in d`. -/
def dictGet (d : List (String × String)) (k : String) : Option String :=
  (d.find? (fun p => p.1 = k)).map (fun p => p.2)

/-- `d[k] = v` on a string-keyed dict: replaces the value of an existing key
in place, otherwise appends the new binding. -/
def dictSet (d : List (String × String)) (k v : String) : List (String × String) :=
  if d.any (fun p => p.1 = k) then
    d.map (fun p => if p.1 = k then (k, v) else p)
  else d ++ [(k, v)]

/-- `kwargs.pop("_tenant_id", None)`: the extracted value and the remaining
dict. -/
def popTenantId (kwargs : List (String × String)) :
    Option String × List (String × String) :=
  (dictGet kwargs "_tenant_id", kwargs.filter (fun p => ¬ p.1 = "_tenant_id"))

/-- `Tenant.objects.get(id=tenant_id)`: `none` models `Tenant.DoesNotExist`. -/
def tenantById (db : List TenantRec) (tid : String) : Option TenantRec :=
  db.find? (fun t => t.id = tid)

/-- Errors raised by `TenantAwareTask.__call__`:  the `Tenant.DoesNotExist`
re-raise from the lookup, or the exception propagated from the task body. -/
inductive TaskErr where
  | doesNotExist (tenantId : String)
  | bodyError (msg : String)
deriving DecidableEq, Repr

/-- `TenantAwareTask.__call__` from `mate/tenants/tasks.py`.

Inputs: the tenant table `db`, the worker-side `kwargs` of the job, the
behaviour `run` of the task body (`self.run`, normal return or raised
exception), and the context store state `ctx0` the worker thread starts
with.  Output: the call's outcome and the final context store state.

Control flow of the source: pop `_tenant_id`; when truthy, look the tenant
up and `set_current_tenant` (a failed lookup re-raises *before* the
`try/finally`, so the store is left untouched on that path); then run the
body inside `try ... finally clear_current_tenant()`. -/
def tenantTaskCall (db : List TenantRec) (kwargs : List (String × String))
    (run : Except String String) (ctx0 : Option TenantRec) :
    Except TaskErr String × Option TenantRec :=
  let (tenantId?, _kwargs) := popTenantId kwargs
  match truthyStr tenantId? with
  | none =>
      -- warning logged, then `try: self.run(...) finally: clear_current_tenant()`
      (run.mapError TaskErr.bodyError, clear_current_tenant ctx0)
  | some tid =>
      match tenantById db tid with
      | none => (Except.error (TaskErr.doesNotExist tid), ctx0)
      | some tenant =>
          (run.mapError TaskErr.bodyError,
           clear_current_tenant (set_current_tenant tenant ctx0))

/-- Result of `TenantAwareTask.apply_async`: the `kwargs` payload and the
`queue` option as handed to `super().apply_async`. -/
structure Submission where
  kwargs : List (String × String)
  queue : Option String
deriving DecidableEq, Repr

/-- `TenantAwareTask.apply_async` from `mate/tenants/tasks.py`.

`isolation?` models `hasattr(settings, "USE_TENANT_QUEUE_ISOLATION") and
settings.USE_TENANT_QUEUE_ISOLATION` (`none` when the setting is absent).
When a current tenant is present, `str(tenant.id)` is written into
`kwargs["_tenant_id"]` and, with isolation on, the `queue` option is
rewritten to `{subdomain}-{queue}` (or `{subdomain}-default` when no queue
was requested).  Without a current tenant everything passes through. -/
def apply_async (ctx : Option TenantRec) (isolation? : Option Bool)
    (kwargs : List (String × String)) (queue? : Option String) : Submission :=
  match get_current_tenant ctx with
  | none => ⟨kwargs, queue?⟩
  | some tenant =>
      let kwargs := dictSet kwargs "_tenant_id" tenant.id
      if isolation?.getD false then
        match queue? with
        | some q => ⟨kwargs, some (tenant.subdomain ++ "-" ++ q)⟩
        | none => ⟨kwargs, some (tenant.subdomain ++ "-default")⟩
      else ⟨kwargs, queue?⟩

/-! ## Readiness pollers (`mate/provisioning/tasks.py`)

`wait_for_rds_available` / `wait_for_elasticache_available` poll a
describe-status API in a `for _ in range(n)` loop with `time.sleep(30)`
between checks.  The sequence of describe responses is modelled as a
function `describe : Nat → PollResponse` giving the status and the
endpoint address carried by the `i`-th response. -/

/-- One describe response: the reported status string and the connection
endpoint extracted when the status is `"available"` (`Endpoint.Address` for
RDS, `NodeGroups[0].PrimaryEndpoint.Address` for ElastiCache). -/
structure PollResponse where
  status : String
  endpoint : String
deriving DecidableEq, Repr

/-- The poll loop: starting at check index `i` with `n` attempts left,
returns the endpoint of the first `"available"` response (or `none`,
modelling the `TimeoutError` raise after the loop) together with the number
of describe calls made. -/
def pollLoop (describe : Nat → PollResponse) (i : Nat) : Nat → Option String × Nat
  | 0 => (none, 0)
  | n + 1 =>
      let r := describe i
      if r.status = "available" then (some r.endpoint, 1)
      else
        let rest := pollLoop describe (i + 1) n
        (rest.1, rest.2 + 1)

/-- `wait_for_rds_available`: up to 60 checks, 30 s apart. -/
def wait_for_rds_available (describe : Nat → PollResponse) : Option String × Nat :=
  pollLoop describe 0 60

/-- `wait_for_elasticache_available`: up to 30 checks, 30 s apart. -/
def wait_for_elasticache_available (describe : Nat → PollResponse) : Option String × Nat :=
  pollLoop describe 0 30

/-! ## Provisioning orchestration (`mate/provisioning/tasks.py`)

`provision_tenant_infrastructure` submits
`group(provision_rds.s, provision_s3.s, provision_elasticache.s,
provision_kms.s)` — a Celery group imposes no ordering between its member
tasks, so any permutation of the four is an admissible completion order. -/

/-- The four resource-creation tasks of the provisioning group. -/
inductive ProvTask where
  | rds | s3 | elasticache | kms
deriving DecidableEq, Repr

/-- The group as submitted at lines 41–46 of `mate/provisioning/tasks.py`,
in source order. -/
def provisioningGroup : List ProvTask :=
  [ProvTask.rds, ProvTask.s3, ProvTask.elasticache, ProvTask.kms]

/-- The tenant-record state the group's tasks read and write.  `kmsKeyArn`
is the value of `tenant.kms_key_arn` (blank before any key is created);
`rdsKmsKeyId` / `s3KmsKeyId` record the `KmsKeyId` /
`KMSMasterKeyID` argument passed to `create_db_instance` /
`put_bucket_encryption` once the corresponding task has run. -/
structure ProvState where
  kmsKeyArn : String
  rdsKmsKeyId : Option String
  s3KmsKeyId : Option String
deriving DecidableEq, Repr

/-- Effect of one group member on the shared tenant state, per the source:
`provision_kms` stores the created key's ARN into `tenant.kms_key_arn`;
`provision_rds` passes `KmsKeyId=tenant.kms_key_arn` to
`create_db_instance`; `provision_s3` passes
`KMSMasterKeyID=tenant.kms_key_arn` to `put_bucket_encryption`;
`provision_elasticache` does not touch the key. -/
def runProvTask : ProvTask → ProvState → ProvState
  | ProvTask.kms, s => { s with kmsKeyArn := "arn:aws:kms:created-key" }
  | ProvTask.rds, s => { s with rdsKmsKeyId := some s.kmsKeyArn }
  | ProvTask.s3, s => { s with s3KmsKeyId := some s.kmsKeyArn }
  | ProvTask.elasticache, s => s

/-- Run a completion order of the group over the tenant state. -/
def runProvSchedule (sched : List ProvTask) (s : ProvState) : ProvState :=
  sched.foldl (fun s t => runProvTask t s) s

/-- The tenant state before provisioning: `kms_key_arn` blank (the model
default for the field), no creation call issued yet. -/
def initialProvState : ProvState := ⟨"", none, none⟩

/-! ### Declared model fields vs. `objects.create` keyword arguments

`mate/tenants/models.py` declares the fields of `TenantEvent`; the failure
handler of `provision_tenant_infrastructure` (lines 59–75) calls
`TenantEvent.objects.create(...)` with keyword arguments that must all be
declared fields, or Django's `Model.__init__` raises
`TypeError: got unexpected keyword arguments`. -/

/-- The declared fields of `TenantEvent` in `mate/tenants/models.py`
(lines 312–352): `id`, `tenant`, `event_type`, `user`, `description`,
`metadata`, `created_at`. -/
def tenantEventFields : List String :=
  ["id", "tenant", "event_type", "user", "description", "metadata", "created_at"]

/-- The keyword arguments of the `TenantEvent.objects.create` call in the
failure handler of `provision_tenant_infrastructure`:
`tenant=tenant, event_type="infrastructure_failed", severity="error",
details={"error": str(e)}`. -/
def failureEventCreateKwargs : List String :=
  ["tenant", "event_type", "severity", "details"]

/-- Django `Model.__init__` keyword handling: accepts the call when every
keyword is a declared field, otherwise raises `TypeError` naming the
unexpected keywords. -/
def djangoCreate (fields kwargs : List String) : Except String Unit :=
  match kwargs.filter (fun k => ¬ fields.contains k) with
  | [] => Except.ok ()
  | bad => Except.error ("TypeError: got unexpected keyword arguments: " ++ String.intercalate ", " bad)

/-- State observed by the failure handler of
`provision_tenant_infrastructure`: the in-memory tenant status attribute
and the list of event types successfully recorded in the audit log. -/
structure OrchState where
  status : String
  recordedEvents : List String
deriving DecidableEq, Repr

/-- Outcome of the `except` block of `provision_tenant_infrastructure`
(lines 59–75): what the handler finally raises to the caller. -/
inductive OrchRaise where
  /-- `raise self.retry(exc=e, countdown=60 * (retries + 1))` was reached. -/
  | retry (countdown : Nat)
  /-- A different exception escaped the handler before the retry line. -/
  | exn (msg : String)
deriving DecidableEq, Repr

/-- The failure handler of `provision_tenant_infrastructure`, entered when a
resource-creation operation raised: sets
`tenant.infrastructure_status = "failed"` and saves, then calls
`TenantEvent.objects.create(tenant=..., event_type="infrastructure_failed",
severity="error", details=...)`, then `raise self.retry(exc=e,
countdown=60 * (self.request.retries + 1))`.  If the event-create call
itself raises, that exception escapes the handler and the retry line is
never reached. -/
def provisionFailureHandler (retries : Nat) (s : OrchState) : OrchState × OrchRaise :=
  let s := { s with status := "failed" }
  match djangoCreate tenantEventFields failureEventCreateKwargs with
  | Except.ok _ =>
      ({ s with recordedEvents := s.recordedEvents ++ ["infrastructure_failed"] },
       OrchRaise.retry (60 * (retries + 1)))
  | Except.error e => (s, OrchRaise.exn e)

/-! ## Deprovisioning (`mate/provisioning/tasks.py`, lines 428–441)

`deprovision_tenant_infrastructure` fetches a fresh tenant and reads
`tenant.infrastructure_status`.  A Django model instance carries
attributes only for its declared fields, and `Tenant` in
`mate/tenants/models.py` declares no `infrastructure_status` field (its
status field is `deployment_status`; `infrastructure_status` appears in the
source only as ad-hoc in-memory assignments in `mate/provisioning/tasks.py`
that `save()` never persists), so the attribute read on a freshly fetched
instance raises `AttributeError`.  The embedding therefore models a fetched
instance as the mapping from *declared* field names to values, with
`getattr` failing on every other name. -/

/-- The declared field names of `Tenant` in `mate/tenants/models.py`
(lines 24–145), in declaration order.  `deployment_status` is declared;
`infrastructure_status` is not. -/
def tenantDeclaredFields : List String :=
  ["id", "name", "slug", "subdomain", "schema_name", "owner",
   "contact_email", "contact_phone", "technical_contact_email",
   "billing_contact_email", "billing_address",
   "aws_region", "aws_account_id", "vpc_id", "subnet_ids",
   "security_group_ids",
   "rds_instance_id", "rds_endpoint", "rds_port", "rds_database_name",
   "elasticache_cluster_id", "elasticache_endpoint",
   "redis_cluster_id", "redis_endpoint", "redis_port",
   "s3_bucket_name", "s3_bucket_region",
   "kms_key_id", "db_secret_arn", "redis_secret_arn",
   "deployment_status", "is_active",
   "created_at", "updated_at", "provisioned_at", "activated_at",
   "provisioning_started_at", "provisioning_completed_at",
   "suspended_at", "is_suspended",
   "plan", "max_storage_gb", "max_users", "max_api_calls_per_month",
   "estimated_monthly_cost",
   "hipaa_compliant", "is_hipaa_compliant", "baa_signed_at",
   "baa_signed_date", "baa_document", "data_retention_years", "settings"]

/-- `getattr` on a freshly fetched `Tenant` instance, whose field values
are given by `fieldValues` over the declared field names: a declared field
resolves to its value, any other attribute name raises `AttributeError`. -/
def fetchedTenantAttr (fieldValues : String → String) (attr : String) :
    Except String String :=
  if tenantDeclaredFields.contains attr then Except.ok (fieldValues attr)
  else
    Except.error
      ("AttributeError: 'Tenant' object has no attribute '" ++ attr ++ "'")

/-- `deprovision_tenant_infrastructure` (lines 428–441), executed against
the declared `Tenant` model: fetch the tenant, read
`tenant.infrastructure_status` from the fetched instance, and — only if
that read yields a value — apply the guard raising
`ValueError("Tenant must be suspended before deprovisioning")` when the
value differs from `"suspended"`; the body after the guard performs no
resource deletion (it is a comment in the source). -/
def deprovision_tenant_infrastructure (fieldValues : String → String) :
    Except String Unit :=
  match fetchedTenantAttr fieldValues "infrastructure_status" with
  | Except.error e => Except.error e
  | Except.ok status =>
      if status ≠ "suspended" then
        Except.error "Tenant must be suspended before deprovisioning"
      else
        Except.ok ()

/-! ## Credential resolver (`mate/tenants/db_utils.py`) -/

/-- The structured secret stored under the tenant's database secret ARN in
the secret store (the fields `get_tenant_db_config` reads from the parsed
`SecretString`). -/
structure SecretRecord where
  username : String
  password : String
deriving DecidableEq, Repr

/-- The database configuration dict built by `get_tenant_db_config`
(constant entries such as `ENGINE` and `OPTIONS` are fixed by the source
and omitted from the record; the per-tenant entries are kept). -/
structure DbConfig where
  name : String
  user : String
  password : String
  host : String
  port : String
deriving DecidableEq, Repr

/-- The module state of `mate/tenants/db_utils.py`: the
`_db_config_cache` dict keyed by tenant subdomain, plus a counter of
`get_secret_value` calls issued to the secret store. -/
structure CacheState where
  cache : List (String × DbConfig)
  secretCalls : Nat
deriving DecidableEq, Repr

/-- `get_tenant_db_config(tenant)`: serve from `_db_config_cache` when the
subdomain is cached; otherwise raise `ValueError` when
`tenant.db_secret_arn` is blank, else call the secret store
(`get_secret_value`), build the configuration from the credentials and the
tenant's RDS fields, cache it and return it.  `store` models the secret
store: `none` is an unreachable store or malformed secret (the exception is
re-raised). -/
def get_tenant_db_config (store : String → Option SecretRecord)
    (tenant : TenantRec) (s : CacheState) : Except String (DbConfig × CacheState) :=
  let cacheKey := tenant.subdomain
  match s.cache.find? (fun p => p.1 = cacheKey) with
  | some entry => Except.ok (entry.2, s)
  | none =>
      if tenant.db_secret_arn = "" then
        Except.error ("Tenant " ++ tenant.subdomain ++ " has no database secret configured")
      else
        let s := { s with secretCalls := s.secretCalls + 1 }
        match store tenant.db_secret_arn with
        | none => Except.error "UpstreamError: secret store call failed"
        | some cred =>
            let cfg : DbConfig :=
              { name := tenant.rds_database_name
                user := cred.username
                password := cred.password
                host := tenant.rds_endpoint
                port := toString tenant.rds_port }
            Except.ok (cfg, { s with cache := s.cache ++ [(cacheKey, cfg)] })

/-- `clear_db_config_cache(tenant_subdomain=None)`: pops one key when a
truthy subdomain is given, otherwise clears the whole cache. -/
def clear_db_config_cache (subdomain? : Option String) (s : CacheState) : CacheState :=
  match truthyStr subdomain? with
  | some sub => { s with cache := s.cache.filter (fun p => ¬ p.1 = sub) }
  | none => { s with cache := [] }

/-! ## Tenant resolver (`mate/tenants/middleware.py`) -/

/-- An inbound request as read by `TenantMiddleware`:
`TENANT_SUBDOMAIN` from the process environment, the `X-Tenant-Id` header
(`request.META["HTTP_X_TENANT_ID"]`), the request host, the optional
session `tenant_id`, and the authenticated principal (`none` when
anonymous). -/
structure MWRequest where
  envTenantSubdomain : Option String
  headerTenantId : Option String
  host : String
  sessionTenantId : Option String
  userId : Option String
deriving DecidableEq, Repr

/-- `Tenant.objects.get(subdomain=..., is_active=True,
deployment_status="active")`. -/
def activeBySubdomain (db : List TenantRec) (sub : String) : Option TenantRec :=
  db.find? (fun t => t.subdomain = sub ∧ t.is_active ∧ t.deployment_status = "active")

/-- `Tenant.objects.get(id=..., is_active=True,
deployment_status="active")`. -/
def activeById (db : List TenantRec) (tid : String) : Option TenantRec :=
  db.find? (fun t => t.id = tid ∧ t.is_active ∧ t.deployment_status = "active")

/-- The subdomains skipped as system subdomains by `get_tenant`. -/
def systemSubdomains : List String := ["www", "api", "admin", "docs", "manage"]

/-- Worker for `strSplitChar`: accumulates the current segment (reversed)
while walking the character list. -/
def splitCharAux (sep : Char) : List Char → List Char → List String
  | [], acc => [String.mk acc.reverse]
  | c :: cs, acc =>
      if c = sep then String.mk acc.reverse :: splitCharAux sep cs []
      else splitCharAux sep cs (c :: acc)

/-- Python `s.split(sep)` for a one-character separator: splits into the
(possibly empty) segments between occurrences of `sep`. -/
def strSplitChar (sep : Char) (s : String) : List String :=
  splitCharAux sep s.data []

/-- Python `s.lower()` (ASCII case folding, as applied to host names). -/
def strToLower (s : String) : String := String.mk (s.data.map Char.toLower)

/-- Python `c in s` for a single character. -/
def strContainsChar (c : Char) (s : String) : Bool := s.data.contains c

/-- `TenantMiddleware.get_tenant` from `mate/tenants/middleware.py`
(lines 77–151).  `Except.error msg` models `raise Http404(msg)`;
`Except.ok none` models `return None`.

Priority order of the source: (1) the `TENANT_SUBDOMAIN` environment
variable (lookup failure → `Http404("Service configuration error")`),
(2) the `X-Tenant-Id` header (failure → `Http404("Tenant not found")`),
(3) the host: localhost/IP hosts fall back to the session (lookup failure
passes silently) and otherwise yield no tenant; hosts of at least three
dot-separated parts resolve by first label unless it is a system
subdomain (failure → `Http404("Organization not found")`). -/
def get_tenant (db : List TenantRec) (req : MWRequest) : Except String (Option TenantRec) :=
  match truthyStr req.envTenantSubdomain with
  | some envTenant =>
      match activeBySubdomain db envTenant with
      | some t => Except.ok (some t)
      | none => Except.error "Service configuration error"
  | none =>
  match truthyStr req.headerTenantId with
  | some tid =>
      match activeById db tid with
      | some t => Except.ok (some t)
      | none => Except.error "Tenant not found"
  | none =>
  let host := strToLower ((strSplitChar ':' req.host).headD "")
  if host = "localhost" ∨ host = "127.0.0.1" ∨ ¬ strContainsChar '.' host then
    match req.sessionTenantId with
    | some sid =>
        match activeById db sid with
        | some t => Except.ok (some t)
        | none => Except.ok none
    | none => Except.ok none
  else
    let parts := strSplitChar '.' host
    if parts.length ≥ 3 then
      let subdomain := parts.headD ""
      if systemSubdomains.contains subdomain then Except.ok none
      else
        match activeBySubdomain db subdomain with
        | some t => Except.ok (some t)
        | none => Except.error "Organization not found"
    else Except.ok none

/-- A `TenantUser` membership row as read by `validate_user_access`. -/
structure TenantUserRec where
  tenantId : String
  userId : String
  is_active : Bool
deriving DecidableEq, Repr

/-- `TenantMiddleware.validate_user_access`: membership lookup
(`TenantUser.objects.get(tenant=..., user=..., is_active=True)`), with
`Http404("You don't have access to this organization")` on absence. -/
def validate_user_access (members : List TenantUserRec) (uid : String)
    (tenant : TenantRec) : Except String Unit :=
  match members.find? (fun m => m.tenantId = tenant.id ∧ m.userId = uid ∧ m.is_active) with
  | some _ => Except.ok ()
  | none => Except.error "You don't have access to this organization"

/-- `TenantMiddleware.process_request` (lines 29–63): resolve the tenant
via `get_tenant`; when one is resolved, reject inactive tenants
(`Http404("This organization's account is currently inactive")`), then
reject non-`active` deployment statuses with the status-specific messages,
then validate the authenticated user's membership.  `Except.ok t?` models
the value left in `request.tenant`. -/
def process_request (db : List TenantRec) (members : List TenantUserRec)
    (req : MWRequest) : Except String (Option TenantRec) :=
  match get_tenant db req with
  | Except.error msg => Except.error msg
  | Except.ok none => Except.ok none
  | Except.ok (some tenant) =>
      if ¬ tenant.is_active then
        Except.error "This organization's account is currently inactive"
      else if tenant.deployment_status ≠ "active" then
        if tenant.deployment_status = "provisioning" then
          Except.error "Your environment is being set up. Please try again in a few minutes."
        else if tenant.deployment_status = "suspended" then
          Except.error "This organization's account has been suspended"
        else
          Except.error "This organization is not available"
      else
        match req.userId with
        | some uid =>
            match validate_user_access members uid tenant with
            | Except.ok _ => Except.ok (some tenant)
            | Except.error msg => Except.error msg
        | none => Except.ok (some tenant)

/-! ## Sample records used in witness statements -/

/-- An active tenant, mirroring `hospital-a` of the repository's tests. -/
def hospitalA : TenantRec :=
  { id := "tid-a", subdomain := "hospital-a", is_active := true,
    deployment_status := "active" }

/-- A second active tenant, mirroring `hospital-b` of the tests. -/
def hospitalB : TenantRec :=
  { id := "tid-b", subdomain := "hospital-b", is_active := true,
    deployment_status := "active" }

/-! ## Dictionary helper lemmas -/

/-- Looking up a key right after `dictSet` returns the value just written,
in the replace branch. -/
theorem dictGet_map_replace (d : List (String × String)) (k v : String)
    (h : d.any (fun p => p.1 = k) = true) :
    dictGet (d.map (fun p => if p.1 = k then (k, v) else p)) k = some v := by
  induction d with
  | nil => simp at h
  | cons p rest ih =>
      by_cases hp : p.1 = k
      · simp [dictGet, List.find?, hp]
      · simp only [List.any_cons, Bool.or_eq_true, decide_eq_true_eq] at h
        rcases h with h | h
        · exact absurd h hp
        · simp only [List.map_cons, if_neg hp]
          simp only [dictGet, List.find?, hp]
          exact ih h

/-- Looking up a key right after `dictSet` returns the value just written,
in the append branch. -/
theorem dictGet_append_new (d : List (String × String)) (k v : String)
    (h : d.any (fun p => p.1 = k) = false) :
    dictGet (d ++ [(k, v)]) k = some v := by
  induction d with
  | nil => simp [dictGet, List.find?]
  | cons p rest ih =>
      simp only [List.any_cons, Bool.or_eq_false_iff, decide_eq_false_iff_not] at h
      simp only [List.cons_append]
      simp only [dictGet, List.find?, h.1]
      exact ih (by simpa using h.2)

/-- `dictGet (dictSet d k v) k = some v`: writing then reading a key. -/
theorem dictGet_dictSet (d : List (String × String)) (k v : String) :
    dictGet (dictSet d k v) k = some v := by
  unfold dictSet
  by_cases h : d.any (fun p => p.1 = k) = true
  · rw [if_pos h]; exact dictGet_map_replace d k v h
  · rw [if_neg h]; exact dictGet_append_new d k v (Bool.eq_false_iff.mpr h)

/-! ## C1 — dispatcher execution clears the tenant context -/

/-- C1: for every execution of `TenantAwareTask.__call__` that reaches the
job body (every `_tenant_id` extracted from the payload resolves to an
existing tenant, or no truthy `_tenant_id` is present), the tenant context
store holds `none` after the call — whether the body returned normally or
raised — so no later unit of work on the same worker thread inherits a
stale tenant. -/
theorem C1_dispatcher_clears_tenant_context
    (db : List TenantRec) (kwargs : List (String × String))
    (run : Except String String) (ctx0 : Option TenantRec)
    (h : (truthyStr (popTenantId kwargs).1).all
          (fun tid => (tenantById db tid).isSome) = true) :
    get_current_tenant (tenantTaskCall db kwargs run ctx0).2 = none := by
  unfold tenantTaskCall
  cases htid : truthyStr (popTenantId kwargs).1 with
  | none => simp [htid, clear_current_tenant, get_current_tenant]
  | some tid =>
      rw [htid] at h
      simp only [Option.all_some] at h
      cases hdb : tenantById db tid with
      | none => rw [hdb] at h; simp at h
      | some t => simp [htid, hdb, clear_current_tenant, get_current_tenant]

/-- C1 witness: a concrete exception-raising run and a concrete normal run,
both leaving the context store empty. -/
theorem C1_dispatcher_clears_tenant_context_witness :
    get_current_tenant (tenantTaskCall [hospitalA] [("_tenant_id", "tid-a")]
      (Except.error "boom") (some hospitalA)).2 = none
    ∧ get_current_tenant (tenantTaskCall [hospitalA] [("_tenant_id", "tid-a")]
      (Except.ok "done") none).2 = none :=
  ⟨C1_dispatcher_clears_tenant_context [hospitalA] [("_tenant_id", "tid-a")]
      (Except.error "boom") (some hospitalA) (by decide),
   C1_dispatcher_clears_tenant_context [hospitalA] [("_tenant_id", "tid-a")]
      (Except.ok "done") none (by decide)⟩

/-! ## C3 — submission-side routing with a current tenant -/

/-- C3: with current tenant `t` and queue isolation enabled, submitting
with no explicit queue routes to `{t.subdomain}-default` and submitting
with queue `q` routes to `{t.subdomain}-{q}`; with isolation disabled
(setting `False` or absent) the queue option passes through unchanged; in
all four cases the tenant id is written into the payload as `_tenant_id`. -/
theorem C3_apply_async_tenant_routing (t : TenantRec)
    (kwargs : List (String × String)) (q : String) :
    apply_async (some t) (some true) kwargs none
      = ⟨dictSet kwargs "_tenant_id" t.id, some (t.subdomain ++ "-default")⟩
    ∧ apply_async (some t) (some true) kwargs (some q)
      = ⟨dictSet kwargs "_tenant_id" t.id, some (t.subdomain ++ "-" ++ q)⟩
    ∧ apply_async (some t) (some false) kwargs (some q)
      = ⟨dictSet kwargs "_tenant_id" t.id, some q⟩
    ∧ apply_async (some t) (some false) kwargs none
      = ⟨dictSet kwargs "_tenant_id" t.id, none⟩
    ∧ apply_async (some t) none kwargs (some q)
      = ⟨dictSet kwargs "_tenant_id" t.id, some q⟩
    ∧ apply_async (some t) none kwargs none
      = ⟨dictSet kwargs "_tenant_id" t.id, none⟩
    ∧ dictGet (apply_async (some t) (some true) kwargs none).kwargs "_tenant_id"
      = some t.id :=
  ⟨rfl, rfl, rfl, rfl, rfl, rfl, dictGet_dictSet kwargs "_tenant_id" t.id⟩

/-! ## C10 — submission with no current tenant is a pure pass-through -/

/-- C10: when no current tenant is set in the context store,
`apply_async` leaves the payload and the queue option unchanged, even with
queue isolation enabled. -/
theorem C10_apply_async_no_tenant_passthrough (isolation? : Option Bool)
    (kwargs : List (String × String)) (queue? : Option String) :
    apply_async none isolation? kwargs queue? = ⟨kwargs, queue?⟩ := rfl

/-! ## C4 — readiness poller lemmas -/

/-- When no response in the window is `"available"`, the loop makes exactly
`n` describe calls and returns the timeout outcome. -/
theorem pollLoop_timeout (describe : Nat → PollResponse) :
    ∀ n i, (∀ j, j < n → (describe (i + j)).status ≠ "available") →
      pollLoop describe i n = (none, n) := by
  intro n
  induction n with
  | zero => intro i _; rfl
  | succ m ih =>
      intro i h
      have h0 : (describe i).status ≠ "available" := by
        simpa using h 0 (Nat.succ_pos m)
      have hrest : ∀ j, j < m → (describe (i + 1 + j)).status ≠ "available" := by
        intro j hj
        have := h (j + 1) (Nat.succ_lt_succ hj)
        simpa [Nat.add_assoc, Nat.add_comm 1 j] using this
      simp only [pollLoop, if_neg h0, ih (i + 1) hrest]

/-- When the first `"available"` response is the `k`-th check and `k` is
within the attempt budget, the loop stops right there: it makes exactly
`k + 1` describe calls and returns that response's endpoint. -/
theorem pollLoop_found (describe : Nat → PollResponse) :
    ∀ n k i, k < n → (∀ j, j < k → (describe (i + j)).status ≠ "available") →
      (describe (i + k)).status = "available" →
      pollLoop describe i n = (some (describe (i + k)).endpoint, k + 1) := by
  intro n
  induction n with
  | zero => intro k i hk; exact absurd hk (Nat.not_lt_zero k)
  | succ m ih =>
      intro k i hk hbefore havail
      cases k with
      | zero =>
          have h0 : (describe i).status = "available" := by simpa using havail
          simp only [pollLoop, if_pos h0]
          simp
      | succ k' =>
          have h0 : (describe i).status ≠ "available" := by
            simpa using hbefore 0 (Nat.succ_pos k')
          have hb : ∀ j, j < k' → (describe (i + 1 + j)).status ≠ "available" := by
            intro j hj
            have := hbefore (j + 1) (Nat.succ_lt_succ hj)
            simpa [Nat.add_assoc, Nat.add_comm 1 j] using this
          have ha : (describe (i + 1 + k')).status = "available" := by
            simpa [Nat.add_assoc, Nat.add_comm 1 k'] using havail
          have hk' : k' < m := Nat.lt_of_succ_lt_succ hk
          simp only [pollLoop, if_neg h0, ih k' (i + 1) hk' hb ha]
          have harith : i + 1 + k' = i + (k' + 1) := by omega
          rw [harith]

/-- C4: the readiness waits return as soon as a check reports
`"available"`, having made exactly `k + 1` describe calls when the first
available response is check `k` and storing that response's endpoint, and
time out after exactly 60 (database) / 30 (cache) unsuccessful checks,
never more. -/
theorem C4_readiness_poller_bounds (describe : Nat → PollResponse) (k : Nat) :
    (k < 60 → (∀ j, j < k → (describe j).status ≠ "available") →
      (describe k).status = "available" →
      wait_for_rds_available describe = (some (describe k).endpoint, k + 1))
    ∧ (k < 30 → (∀ j, j < k → (describe j).status ≠ "available") →
      (describe k).status = "available" →
      wait_for_elasticache_available describe = (some (describe k).endpoint, k + 1))
    ∧ ((∀ j, j < 60 → (describe j).status ≠ "available") →
      wait_for_rds_available describe = (none, 60))
    ∧ ((∀ j, j < 30 → (describe j).status ≠ "available") →
      wait_for_elasticache_available describe = (none, 30)) := by
  refine ⟨fun hk hb ha => ?_, fun hk hb ha => ?_, fun hb => ?_, fun hb => ?_⟩
  · have := pollLoop_found describe 60 k 0 hk (by simpa using hb) (by simpa using ha)
    simpa [wait_for_rds_available] using this
  · have := pollLoop_found describe 30 k 0 hk (by simpa using hb) (by simpa using ha)
    simpa [wait_for_elasticache_available] using this
  · have := pollLoop_timeout describe 60 0 (by simpa using hb)
    simpa [wait_for_rds_available] using this
  · have := pollLoop_timeout describe 30 0 (by simpa using hb)
    simpa [wait_for_elasticache_available] using this

/-- A describe sequence whose third response is the first `"available"`
one. -/
def describeReadyAt2 : Nat → PollResponse :=
  fun i => if i = 2 then ⟨"available", "db.internal.example"⟩ else ⟨"creating", ""⟩

/-- A describe sequence that never reports `"available"`. -/
def describeNeverReady : Nat → PollResponse :=
  fun _ => ⟨"creating", ""⟩

/-- C4 witness: with availability first reported at the third check both
waits stop after exactly 3 checks with the reported endpoint; with no
availability the database wait makes exactly 60 checks and the cache wait
exactly 30 before timing out. -/
theorem C4_readiness_poller_bounds_witness :
    wait_for_rds_available describeReadyAt2 = (some "db.internal.example", 3)
    ∧ wait_for_elasticache_available describeReadyAt2 = (some "db.internal.example", 3)
    ∧ wait_for_rds_available describeNeverReady = (none, 60)
    ∧ wait_for_elasticache_available describeNeverReady = (none, 30) :=
  ⟨(C4_readiness_poller_bounds describeReadyAt2 2).1 (by decide)
      (by decide) (by decide),
   (C4_readiness_poller_bounds describeReadyAt2 2).2.1 (by decide)
      (by decide) (by decide),
   (C4_readiness_poller_bounds describeNeverReady 0).2.2.1
      (by intro j _; simp [describeNeverReady]),
   (C4_readiness_poller_bounds describeNeverReady 0).2.2.2
      (by intro j _; simp [describeNeverReady])⟩

/-! ## C2 — the provisioning group does not sequence key creation -/

/-- C2 counterexample evaluation: a Celery group imposes no order between
its members, so the source order `[rds, s3, elasticache, kms]` itself is an
admissible completion order, and under it both the `create_db_instance`
call and the `put_bucket_encryption` call read the blank pre-creation
`tenant.kms_key_arn` (`""`) instead of the created key's ARN — key
creation is not sequenced before the key-dependent resource creations. -/
theorem C2_group_reads_arn_before_kms :
    ∃ sched : List ProvTask, sched.Perm provisioningGroup ∧
      (runProvSchedule sched initialProvState).rdsKmsKeyId = some ""
      ∧ (runProvSchedule sched initialProvState).s3KmsKeyId = some ""
      ∧ (runProvSchedule sched initialProvState).kmsKeyArn = "arn:aws:kms:created-key" :=
  ⟨provisioningGroup, List.Perm.refl _, rfl, rfl, rfl⟩

/-! ## C5 — the failure handler cannot record its audit event -/

/-- C5 counterexample evaluation: the failure handler of
`provision_tenant_infrastructure` passes the keyword arguments `severity`
and `details` to `TenantEvent.objects.create`, but `TenantEvent` declares
neither field (its fields are `id`, `tenant`, `event_type`, `user`,
`description`, `metadata`, `created_at`), so the create call raises
`TypeError`: no `infrastructure_failed` audit event is recorded, and the
exception escaping the handler is that `TypeError`, not the
`self.retry(...)` re-raise the caller's bounded retry logic expects. -/
theorem C5_failure_event_create_raises (retries : Nat) (s : OrchState) :
    provisionFailureHandler retries s
      = ({ s with status := "failed" },
         OrchRaise.exn "TypeError: got unexpected keyword arguments: severity, details")
    ∧ (provisionFailureHandler retries s).1.recordedEvents = s.recordedEvents
    ∧ (provisionFailureHandler retries s).2
        = OrchRaise.exn "TypeError: got unexpected keyword arguments: severity, details" :=
  ⟨rfl, rfl, rfl⟩

/-! ## C8 — the deprovisioning guard reads an undeclared attribute -/

/-- C8 counterexample evaluation: `deprovision_tenant_infrastructure`
reads `tenant.infrastructure_status` on a freshly fetched `Tenant`, but
`Tenant` declares no such field (`deployment_status` is the declared
status field), so the call raises `AttributeError` for every tenant —
whatever the tenant's field values, including a suspended tenant.  The
`ValueError("Tenant must be suspended before deprovisioning")` guard is
unreachable and the suspended success path is unreachable too, contra the
claim that non-suspended tenants fail with the invalid-state error and
suspended tenants may be deprovisioned. -/
theorem C8_deprovision_raises_attribute_error (fieldValues : String → String) :
    deprovision_tenant_infrastructure fieldValues
      = Except.error
          "AttributeError: 'Tenant' object has no attribute 'infrastructure_status'"
    ∧ tenantDeclaredFields.contains "infrastructure_status" = false
    ∧ tenantDeclaredFields.contains "deployment_status" = true :=
  ⟨rfl, rfl, rfl⟩

/-! ## C7 — the credential resolver caches by tenant key -/

/-- `find?` over an append skips a prefix with no match. -/
theorem find?_append_of_none {α : Type} (l₁ l₂ : List α) (p : α → Bool)
    (h : l₁.find? p = none) : (l₁ ++ l₂).find? p = l₂.find? p := by
  induction l₁ with
  | nil => simp
  | cons a l ih =>
      cases hp : p a with
      | true => simp [List.find?, hp] at h
      | false =>
          simp only [List.find?, hp] at h
          simpa [List.find?, hp] using ih h

/-- C7: when `get_tenant_db_config` succeeds, an immediately repeated call
for the same tenant with no intervening invalidation is served from the
cache: it returns the same configuration, leaves the state unchanged, and
issues no further secret-store call — so the pair of calls issues at most
one secret-store call in total. -/
theorem C7_db_config_second_call_cached (store : String → Option SecretRecord)
    (tenant : TenantRec) (s s' : CacheState) (cfg : DbConfig)
    (h : get_tenant_db_config store tenant s = Except.ok (cfg, s')) :
    get_tenant_db_config store tenant s' = Except.ok (cfg, s')
    ∧ s'.secretCalls ≤ s.secretCalls + 1 := by
  simp only [get_tenant_db_config] at h ⊢
  cases hfind : s.cache.find? (fun p => p.1 = tenant.subdomain) with
  | some entry =>
      rw [hfind] at h
      simp only [Except.ok.injEq, Prod.mk.injEq] at h
      obtain ⟨hcfg, hs⟩ := h
      subst hcfg
      subst hs
      rw [hfind]
      exact ⟨rfl, Nat.le_succ _⟩
  | none =>
      rw [hfind] at h
      by_cases harn : tenant.db_secret_arn = ""
      · rw [if_pos harn] at h
        exact absurd h (by simp)
      · rw [if_neg harn] at h
        cases hstore : store tenant.db_secret_arn with
        | none =>
            rw [hstore] at h
            exact absurd h (by simp)
        | some cred =>
            rw [hstore] at h
            simp only [Except.ok.injEq, Prod.mk.injEq] at h
            obtain ⟨hcfg, hs⟩ := h
            subst hcfg
            subst hs
            have hcache : ((s.cache ++ [(tenant.subdomain,
                { name := tenant.rds_database_name, user := cred.username,
                  password := cred.password, host := tenant.rds_endpoint,
                  port := toString tenant.rds_port : DbConfig})]).find?
                  (fun p => p.1 = tenant.subdomain))
                = some (tenant.subdomain,
                    { name := tenant.rds_database_name, user := cred.username,
                      password := cred.password, host := tenant.rds_endpoint,
                      port := toString tenant.rds_port }) := by
              rw [find?_append_of_none _ _ _ hfind]
              simp [List.find?]
            simp only [hcache]
            exact ⟨trivial, Nat.le_refl _⟩

/-- A secret store holding one database secret under `arn:secret:db`. -/
def sampleSecretStore : String → Option SecretRecord :=
  fun arn => if arn = "arn:secret:db" then some ⟨"mate_admin", "pw-1"⟩ else none

/-- A tenant configured with the sample secret reference. -/
def credTenant : TenantRec :=
  { id := "tid-c", subdomain := "hospital-c", is_active := true,
    deployment_status := "active", db_secret_arn := "arn:secret:db",
    rds_endpoint := "db.hospital-c.internal", rds_port := 5432,
    rds_database_name := "mate_hospital_c" }

/-- The configuration the first resolver call builds for `credTenant`. -/
def credCfg : DbConfig :=
  { name := "mate_hospital_c", user := "mate_admin", password := "pw-1",
    host := "db.hospital-c.internal", port := "5432" }

/-- The module state after the first resolver call from an empty cache:
one cached entry, one secret-store call. -/
def credState1 : CacheState := ⟨[("hospital-c", credCfg)], 1⟩

/-- C7 witness: after a concrete first call from the empty cache, the
second call returns the same configuration with the state unchanged, and
the total number of secret-store calls is one. -/
theorem C7_db_config_second_call_cached_witness :
    get_tenant_db_config sampleSecretStore credTenant credState1
      = Except.ok (credCfg, credState1)
    ∧ credState1.secretCalls ≤ (CacheState.mk [] 0).secretCalls + 1 :=
  C7_db_config_second_call_cached sampleSecretStore credTenant ⟨[], 0⟩
    credState1 credCfg (by rfl)

/-! ## C6 — status-specific rejection messages are unreachable -/

/-- A tenant still in `provisioning` deployment status. -/
def provisioningTenant : TenantRec :=
  { id := "tid-p", subdomain := "hospital-p", is_active := true,
    deployment_status := "provisioning" }

/-- A tenant in `suspended` deployment status. -/
def suspendedTenant : TenantRec :=
  { id := "tid-s", subdomain := "hospital-s", is_active := true,
    deployment_status := "suspended" }

/-- The tenant table for the C6 evaluation. -/
def c6Db : List TenantRec := [provisioningTenant, suspendedTenant]

/-- C6 counterexample evaluation: requests resolving to a tenant in
`provisioning` or `suspended` status are rejected with the unknown-tenant
messages (`"Tenant not found"` via the header path, `"Organization not
found"` via the subdomain path), not with the provisioning-specific or
suspension-specific messages — because `get_tenant` filters its lookups by
`deployment_status="active"`, the status-specific branch of
`process_request` can never see such a tenant. -/
theorem C6_status_messages_not_produced :
    process_request c6Db [] ⟨none, some "tid-p", "testserver", none, none⟩
      = Except.error "Tenant not found"
    ∧ process_request c6Db [] ⟨none, some "tid-s", "testserver", none, none⟩
      = Except.error "Tenant not found"
    ∧ process_request c6Db [] ⟨none, none, "hospital-p.example.com", none, none⟩
      = Except.error "Organization not found"
    ∧ process_request c6Db [] ⟨none, none, "hospital-s.example.com", none, none⟩
      = Except.error "Organization not found" :=
  ⟨rfl, rfl, rfl, rfl⟩

/-! ## C9 — resolver priority: environment, then header, then subdomain -/

/-- C9: `get_tenant` resolves by the environment identifier whenever a
truthy `TENANT_SUBDOMAIN` names an active tenant — regardless of any
header or host — and only with no truthy environment identifier does a
truthy `X-Tenant-Id` header naming an active tenant win, regardless of the
host. -/
theorem C9_resolver_priority_order (db : List TenantRec) (req : MWRequest)
    (key : String) (t : TenantRec) :
    (truthyStr req.envTenantSubdomain = some key →
      activeBySubdomain db key = some t →
      get_tenant db req = Except.ok (some t))
    ∧ (truthyStr req.envTenantSubdomain = none →
      truthyStr req.headerTenantId = some key →
      activeById db key = some t →
      get_tenant db req = Except.ok (some t)) := by
  constructor
  · intro henv hsub
    simp only [get_tenant, henv, hsub]
  · intro henv hhdr hid
    simp only [get_tenant, henv, hhdr, hid]

/-- C9 witness: with the environment naming `hospital-a` and the header
naming `hospital-b` (both active), the environment tenant is resolved;
with no environment identifier the header tenant is resolved. -/
theorem C9_resolver_priority_order_witness :
    get_tenant [hospitalA, hospitalB]
      ⟨some "hospital-a", some "tid-b", "testserver", none, none⟩
      = Except.ok (some hospitalA)
    ∧ get_tenant [hospitalA, hospitalB]
      ⟨none, some "tid-b", "testserver", none, none⟩
      = Except.ok (some hospitalB) :=
  ⟨(C9_resolver_priority_order [hospitalA, hospitalB]
      ⟨some "hospital-a", some "tid-b", "testserver", none, none⟩
      "hospital-a" hospitalA).1 (by decide) (by decide),
   (C9_resolver_priority_order [hospitalA, hospitalB]
      ⟨none, some "tid-b", "testserver", none, none⟩
      "tid-b" hospitalB).2 (by decide) (by decide) (by decide)⟩

end Mate
